import Mathlib

/-!
Verification of the event-driven decision pipeline of the
hankook-logistics-agent backend: a shallow embedding in Lean 4 of the
execution-mode decision and approval state machine (`app/agents/action_agent.py`),
the anomaly rules and cooldown ledger (`app/agents/rules.py`,
`app/agents/monitor_agent.py`), the in-memory event bus
(`app/events/event_bus.py`), the priority scorer (`app/agents/priority_agent.py`),
the analyzer template fallback (`app/agents/anomaly_agent.py`) and the
state snapshot (`app/agents/state_snapshot.py`).

Python floats are modelled as exact rationals, datetimes as rational
timestamps in seconds, dicts as association lists, and the database as a
list of records keyed the way the queries key them.
-/

namespace Hankook

/-- `ExecutionMode` of `app/models/agent_event.py`: the disposition of a
recommended action. -/
inductive ExecutionMode
  | AUTO
  | PENDING_APPROVAL
  | ESCALATED
  | HUMAN_APPROVED
deriving DecidableEq, Repr

/-- `EventSeverity` of `app/models/agent_event.py`. -/
inductive EventSeverity
  | CRITICAL
  | WARNING
  | INFO
deriving DecidableEq, Repr

/-! ## Action agent: execution-mode decision (`action_agent.py` lines 25-49) -/

/-- The `ACTION_THRESHOLDS` table of `action_agent.py`:
`action_type ↦ (auto_threshold, approval_threshold)`. -/
def ACTION_THRESHOLDS : List (String × (ℚ × ℚ)) :=
  [ ("피킹 순서 변경", (85/100, 60/100)),
    ("주문 익일 전환", (85/100, 60/100)),
    ("배차 재배정", (101/100, 60/100)),
    ("경로 재최적화", (85/100, 60/100)),
    ("긴급 생산 요청", (101/100, 101/100)),
    ("고객 알림 발송", (60/100, 30/100)),
    ("ECONOMY 주문 익일 전환", (85/100, 60/100)),
    ("대체 창고 재고 이동", (101/100, 60/100)),
    ("주문 부분 출하", (85/100, 60/100)),
    ("도크 사용 효율화", (85/100, 60/100)),
    ("상황 모니터링", (50/100, 30/100)) ]

/-- `ACTION_THRESHOLDS.get(action_type, (0.85, 0.60))` of
`_determine_execution_mode`. -/
def thresholds_for (action_type : String) : ℚ × ℚ :=
  (ACTION_THRESHOLDS.lookup action_type).getD (85/100, 60/100)

/-- `_determine_execution_mode` of `action_agent.py` lines 40-49. -/
def determine_execution_mode (action_type : String) (confidence : ℚ) : ExecutionMode :=
  let th := thresholds_for action_type
  if th.1 ≤ confidence then ExecutionMode.AUTO
  else if th.2 ≤ confidence then ExecutionMode.PENDING_APPROVAL
  else ExecutionMode.ESCALATED

/-! ## Rule engine: order-surge rule (`rules.py` lines 36-75)

An anomaly event carries a type and a severity; the human-readable title,
description and diagnostic payload of `rules.AnomalyEvent` are presentation
data not touched by any claim and are not modelled. -/

/-- The type/severity core of `rules.AnomalyEvent`. -/
structure AnomalyEvt where
  event_type : String
  severity : EventSeverity
deriving DecidableEq, Repr

/-- `OrderSurgeRule.check` of `rules.py` lines 46-75, as a function of the two
snapshot readings it makes (`rate_10min`, `rate_60min_avg`). -/
def order_surge_check (rate_10min : ℕ) (avg_10min : ℚ) : Option AnomalyEvt :=
  if avg_10min < 1 ∨ rate_10min < 4 then none
  else if (rate_10min : ℚ) / avg_10min < 2 then none
  else some ⟨"ORDER_SURGE",
    if 3 ≤ (rate_10min : ℚ) / avg_10min then EventSeverity.CRITICAL
    else EventSeverity.WARNING⟩

/-- `OrderRateWindow.count_in_minutes` of `state_snapshot.py` lines 24-28:
arrival timestamps strictly newer than `now - minutes*60` seconds. -/
def count_in_minutes (timestamps : List ℚ) (now : ℚ) (minutes : ℕ) : ℕ :=
  (timestamps.filter (fun ts => now - (minutes : ℚ) * 60 < ts)).length

/-- `OrderRateWindow.rate_10min`. -/
def rate_10min (timestamps : List ℚ) (now : ℚ) : ℕ :=
  count_in_minutes timestamps now 10

/-- `OrderRateWindow.rate_60min_avg`: count of the last 60 minutes over the
six 10-minute buckets. -/
def rate_60min_avg (timestamps : List ℚ) (now : ℚ) : ℚ :=
  (count_in_minutes timestamps now 60 : ℚ) / 6

/-- `OrderSurgeRule.check` applied to a rate window read at time `now`. -/
def order_surge_rule (timestamps : List ℚ) (now : ℚ) : Option AnomalyEvt :=
  order_surge_check (rate_10min timestamps now) (rate_60min_avg timestamps now)

/-! ## Action agent: approval state machine (`action_agent.py` lines 244-311) -/

/-- A JSON-ish value held in the `payload` column of an `agent_events` row. -/
inductive PayloadValue
  | str (s : String)
  | bool (b : Bool)
  | num (q : ℚ)
deriving DecidableEq, Repr

/-- Python dict assignment `d[k] = v` on an association list: the binding of
`k` takes the new value in place, or one is appended when the key is absent. -/
def assoc_set {β : Type} : List (String × β) → String → β → List (String × β)
  | [], k, v => [(k, v)]
  | kv :: rest, k, v =>
    if kv.1 == k then (k, v) :: assoc_set rest k v
    else kv :: assoc_set rest k v

/-- The columns of an `agent_events` row that the approval workflow touches. -/
structure AgentEvent where
  event_id : String
  execution_mode : ExecutionMode
  action_taken : String
  payload : List (String × PayloadValue)
deriving DecidableEq, Repr

/-- The `agent_events` table. -/
abbrev EventDB := List AgentEvent

/-- `db.query(AgentEvent).filter(AgentEvent.event_id == event_id).first()`. -/
def find_event (db : EventDB) (event_id : String) : Option AgentEvent :=
  db.find? (fun e => e.event_id == event_id)

/-- Commit of a mutated record: every row carrying the key of the record takes the
new value. -/
def set_event (db : EventDB) (ev : AgentEvent) : EventDB :=
  db.map (fun e => if e.event_id == ev.event_id then ev else e)

/-- The structured outcome dict of `_do_approve` / `_do_reject`: a success dict
(`event_id`, `status`, plus `action_type` for approve or `reason` for reject)
or an error dict; business-rule violations come back as `err`, not as a raised
exception. -/
inductive ApprovalOutcome
  | ok (event_id status extra : String)
  | err (message : String)
deriving DecidableEq, Repr

/-- `event.payload.get("action_type", "")` as read back by `_do_approve`. -/
def payload_get_str (p : List (String × PayloadValue)) (k : String) : String :=
  match p.lookup k with
  | some (PayloadValue.str s) => s
  | _ => ""

/-- `str(event.execution_mode)` as interpolated into the error message. -/
def execution_mode_str : ExecutionMode → String
  | ExecutionMode.AUTO => "ExecutionMode.AUTO"
  | ExecutionMode.PENDING_APPROVAL => "ExecutionMode.PENDING_APPROVAL"
  | ExecutionMode.ESCALATED => "ExecutionMode.ESCALATED"
  | ExecutionMode.HUMAN_APPROVED => "ExecutionMode.HUMAN_APPROVED"

/-- `ActionAgent._do_approve` (`action_agent.py` lines 250-278): the resulting
database and the structured outcome. -/
def do_approve (db : EventDB) (event_id : String) : EventDB × ApprovalOutcome :=
  match find_event db event_id with
  | none => (db, ApprovalOutcome.err ("이벤트를 찾을 수 없습니다"))
  | some ev =>
    if ev.execution_mode ≠ ExecutionMode.PENDING_APPROVAL then
      (db, ApprovalOutcome.err
        ("승인 대기 상태가 아닙니다 (현재: " ++ execution_mode_str ev.execution_mode ++ ")"))
    else
      let ev2 := { ev with
        execution_mode := ExecutionMode.HUMAN_APPROVED,
        action_taken := ev.action_taken ++ " → 관리자 승인 완료" }
      (set_event db ev2,
        ApprovalOutcome.ok event_id ("approved") (payload_get_str ev.payload ("action_type")))

/-- `ActionAgent._do_reject` (`action_agent.py` lines 285-311). The payload is
annotated only when non-empty, mirroring the `if event.payload:` guard. -/
def do_reject (db : EventDB) (event_id reason : String) : EventDB × ApprovalOutcome :=
  match find_event db event_id with
  | none => (db, ApprovalOutcome.err ("이벤트를 찾을 수 없습니다"))
  | some ev =>
    if ev.execution_mode ≠ ExecutionMode.PENDING_APPROVAL then
      (db, ApprovalOutcome.err
        ("승인 대기 상태가 아닙니다 (현재: " ++ execution_mode_str ev.execution_mode ++ ")"))
    else
      let ev2 := { ev with
        execution_mode := ExecutionMode.ESCALATED,
        action_taken := ev.action_taken ++ " → 관리자 거절: " ++ reason,
        payload :=
          if ev.payload.isEmpty then ev.payload
          else assoc_set (assoc_set ev.payload ("rejected") (PayloadValue.bool true))
            ("reject_reason") (PayloadValue.str reason) }
      (set_event db ev2, ApprovalOutcome.ok event_id ("rejected") reason)

/-- A sample pending row, as `_execute_action` would have written it. -/
def sample_event : AgentEvent :=
  { event_id := "EV-1",
    execution_mode := ExecutionMode.PENDING_APPROVAL,
    action_taken := "배차 재배정 — 관리자 승인 대기",
    payload := [("action_type", PayloadValue.str "배차 재배정")] }

/-- A one-row `agent_events` table holding `sample_event`. -/
def sample_db : EventDB := [sample_event]

/-! ## Monitor agent: rule cooldown (`monitor_agent.py` lines 27-28, 142-188) -/

/-- `COOLDOWN_SECONDS` of `monitor_agent.py`: 300 seconds. -/
def COOLDOWN_SECONDS : ℚ := 300

/-- The monitor state touched by `_run_rules` for one rule: the cooldown
ledger `last_detected` of the snapshot, plus the two firing effects — audit
records written through `log_event` and `anomaly.detected` messages published
— recorded here by rule id. -/
structure MonitorState where
  last_detected : List (String × ℚ)
  audit_log : List String
  published : List String
deriving DecidableEq, Repr

/-- One iteration of the `_run_rules` loop (`monitor_agent.py` lines 146-185)
at time `now`: `fires` is whether `rule.check(state)` returned an event. A
rule whose id was stamped within the cooldown window is skipped; otherwise the
ledger is stamped with `now`, an audit record is written and an
`anomaly.detected` message is published. -/
def run_rule_step (st : MonitorState) (rule_id : String) (fires : Bool) (now : ℚ) :
    MonitorState :=
  if fires = false then st
  else
    match st.last_detected.lookup rule_id with
    | some last =>
      if now - last < COOLDOWN_SECONDS then st
      else
        { last_detected := assoc_set st.last_detected rule_id now,
          audit_log := st.audit_log ++ [rule_id],
          published := st.published ++ [rule_id] }
    | none =>
      { last_detected := assoc_set st.last_detected rule_id now,
        audit_log := st.audit_log ++ [rule_id],
        published := st.published ++ [rule_id] }

/-- A monitor state in which the order-surge rule fired at time 0. -/
def sample_monitor_state : MonitorState :=
  { last_detected := [("order_surge", 0)],
    audit_log := ["order_surge"],
    published := ["order_surge"] }

/-! ## Event bus: in-memory bounded queue (`event_bus.py` lines 84, 113-125) -/

/-- `asyncio.Queue(maxsize=10000)`: the per-topic in-memory queue capacity. -/
def INMEMORY_MAXSIZE : ℕ := 10000

/-- `AsyncEventBus._enqueue_inmemory` acting on the queue contents (oldest
first): `put_nowait` when there is room; on `QueueFull`, `get_nowait` the
single oldest entry, then enqueue the new event. The producer never blocks. -/
def enqueue_inmemory {α : Type} (q : List α) (e : α) : List α :=
  if q.length < INMEMORY_MAXSIZE then q ++ [e]
  else q.drop 1 ++ [e]

/-! ## Priority agent: scoring model (`priority_agent.py` lines 30-49, 117-251) -/

/-- `CustomerGrade` of `app/models/customer.py`. -/
inductive CustomerGrade
  | VIP
  | STANDARD
  | ECONOMY
deriving DecidableEq, Repr

/-- `PriorityGrade` of `app/models/product.py`. -/
inductive PriorityGrade
  | A
  | B
  | C
deriving DecidableEq, Repr

/-- Weight of the customer-tier sub-score (`priority_agent.py` line 31). -/
def W_CUSTOMER : ℚ := 25/100

/-- Weight of the urgency sub-score (line 32). -/
def W_URGENCY : ℚ := 30/100

/-- Weight of the product-grade sub-score (line 33). -/
def W_PRODUCT : ℚ := 15/100

/-- Weight of the inventory-availability sub-score (line 34). -/
def W_INVENTORY : ℚ := 15/100

/-- Weight of the anomaly-membership sub-score (line 35). -/
def W_ANOMALY : ℚ := 15/100

/-- `CUSTOMER_SCORES` (lines 38-42). -/
def CUSTOMER_SCORES : CustomerGrade → ℚ
  | CustomerGrade.VIP => 100
  | CustomerGrade.STANDARD => 60
  | CustomerGrade.ECONOMY => 30

/-- `PRODUCT_SCORES` (lines 45-49). -/
def PRODUCT_SCORES : PriorityGrade → ℚ
  | PriorityGrade.A => 100
  | PriorityGrade.B => 60
  | PriorityGrade.C => 30

/-- The key used by the best-grade `min` (line 181). -/
def grade_index : PriorityGrade → ℕ
  | PriorityGrade.A => 0
  | PriorityGrade.B => 1
  | PriorityGrade.C => 2

/-- One order line item joined with its product row and the inventory row of
(order.warehouse_id, item.product_id): `product_grade` is `none` when the
product row is missing, `inventory_qty` is `none` when there is no matching
inventory row (the loop then changes nothing for that item). -/
structure OrderItemCtx where
  quantity : ℕ
  product_grade : Option PriorityGrade
  inventory_qty : Option ℕ
deriving DecidableEq, Repr

/-- The customer columns read per order: grade and SLA hours. -/
structure CustomerData where
  grade : CustomerGrade
  sla_hours : ℚ
deriving DecidableEq, Repr

/-- One open order as `_do_recalculate` sees it: `customer` is `none` when the
customer row is missing (the order is then skipped), `remaining_hours` is
`(order.requested_delivery_at - now)` in hours at the evaluation time. -/
structure OrderCtx where
  order_code : String
  customer : Option CustomerData
  remaining_hours : ℚ
  items : List OrderItemCtx
  priority_score : ℚ
deriving DecidableEq, Repr

/-- The `inventory_ok` / `inventory_partial` flags accumulated by the item
loop (lines 144-166): a zero-stock shortfall clears the first flag, a
positive shortfall sets the second, an item without an inventory row changes
nothing. -/
def inventory_flags (items : List OrderItemCtx) : Bool × Bool :=
  items.foldl
    (fun fl it =>
      match it.inventory_qty with
      | some qty =>
        if qty < it.quantity then
          if qty = 0 then (false, fl.2) else (fl.1, true)
        else fl
      | none => fl)
    (true, false)

/-- `min(product_grades, key=lambda g: ["A","B","C"].index(g.value))`; Python
`min` keeps the earliest of equal minima. -/
def best_grade (g : PriorityGrade) (rest : List PriorityGrade) : PriorityGrade :=
  rest.foldl (fun acc h => if grade_index h < grade_index acc then h else acc) g

/-- The product sub-score (lines 179-184): best grade when any, default 30. -/
def product_score_of (grades : List PriorityGrade) : ℚ :=
  match grades with
  | [] => 30
  | g :: rest => PRODUCT_SCORES (best_grade g rest)

/-- Python `round(x, 2)` at integer scale: round half to even. -/
def round_half_even (q : ℚ) : ℤ :=
  if q - ⌊q⌋ < 1/2 then ⌊q⌋
  else if 1/2 < q - ⌊q⌋ then ⌊q⌋ + 1
  else if Even ⌊q⌋ then ⌊q⌋ else ⌊q⌋ + 1

/-- Python `round(x, 2)`: round half to even at two decimals. -/
def round2 (q : ℚ) : ℚ := (round_half_even (q * 100) : ℚ) / 100

/-- The per-order score of `_do_recalculate` (lines 168-206) for an order
whose customer row is `c`: the five sub-scores, the weighted sum rounded to
two decimals, then clamped into [0, 100]. -/
def compute_new_score (affected_codes : List String) (o : OrderCtx) (c : CustomerData) : ℚ :=
  let customer_score := CUSTOMER_SCORES c.grade
  let urgency_score : ℚ :=
    if 0 < c.sla_hours then
      max 0 (min 100 ((1 - o.remaining_hours / c.sla_hours) * 100))
    else 0
  let product_grades := o.items.filterMap (fun it => it.product_grade)
  let product_score := product_score_of product_grades
  let fl := inventory_flags o.items
  let inventory_score : ℚ :=
    if fl.1 && !fl.2 then 100
    else if fl.2 then 50
    else 0
  let anomaly_score : ℚ := if o.order_code ∈ affected_codes then 30 else 0
  let new_score := round2
    (customer_score * W_CUSTOMER + urgency_score * W_URGENCY +
      product_score * W_PRODUCT + inventory_score * W_INVENTORY +
      anomaly_score * W_ANOMALY)
  min 100 (max 0 new_score)

/-- A recorded priority change: the `priority_history` row plus the entry
appended to the `changes` list (lines 214-234). -/
structure PriorityChange where
  order_code : String
  old_score : ℚ
  new_score : ℚ
  direction : String
deriving DecidableEq, Repr

/-- The loop body of `_do_recalculate` for one order (lines 136-234): skip
when the customer row is missing; otherwise compute the new score and, when
`|new - old| ≥ 0.5`, overwrite the live score and record a directional
change; otherwise leave the order untouched. -/
def score_order (affected_codes : List String) (o : OrderCtx) :
    OrderCtx × Option PriorityChange :=
  match o.customer with
  | none => (o, none)
  | some c =>
    let new_score := compute_new_score affected_codes o c
    let old_score := o.priority_score
    if 1/2 ≤ |new_score - old_score| then
      ({ o with priority_score := new_score },
        some { order_code := o.order_code, old_score := old_score,
               new_score := new_score,
               direction := if old_score < new_score then "상향" else "하향" })
    else (o, none)

/-- The scoring pass of `_do_recalculate` over all open orders: the score of each
order depends only on its own row (never on the live score of another order), so
the sequential loop is a map; the recorded changes are collected in order.
The summary counts and the `changes[:20]` cap of the returned dict are
presentation data derived from this list. -/
def do_recalculate (affected_codes : List String) (orders : List OrderCtx) :
    List OrderCtx × List PriorityChange :=
  (orders.map (fun o => (score_order affected_codes o).1),
    orders.filterMap (fun o => (score_order affected_codes o).2))

/-- `clamp(lo, hi, x)` as the spec phrases the clamps. -/
def spec_clamp (lo hi x : ℚ) : ℚ := min hi (max lo x)

/-- Spec-side product sub-score: the best line-item grade A/B/C mapped to
100/60/30, default 30. -/
def spec_product_score (grades : List PriorityGrade) : ℚ :=
  if grades.contains PriorityGrade.A then 100
  else if grades.contains PriorityGrade.B then 60
  else 30

/-- Spec-side inventory sub-score: 100 when every line item is fully
coverable, 50 when some line item is partially short (positive stock below
the ordered quantity), 0 otherwise. -/
def spec_inventory_score (items : List OrderItemCtx) : ℚ :=
  if items.all (fun it => it.inventory_qty.all (fun qty => decide (it.quantity ≤ qty))) then 100
  else if items.any (fun it => it.inventory_qty.any
      (fun qty => decide (qty < it.quantity) && decide (qty ≠ 0))) then 50
  else 0

/-! ## Event bus: dispatch and consumer loop (`event_bus.py` lines 79-85,
127-143, 171-178) -/

/-- A subscribed handler: `subscribe` appends to the handler list of the topic, so
list order is registration order; `hid` names the handler, and its body
either finishes in a new handler-side state or raises. -/
structure BusHandler (dat st err : Type) where
  hid : ℕ
  run : dat → st → Except err st

/-- `AsyncEventBus._dispatch` (lines 171-178): invoke every registered handler
for the topic in registration order; a handler exception is caught and the
loop continues with the next handler. Returns the final handler-side state
and the invocation log (handler ids in invocation order). -/
def dispatch {dat st err : Type} (handlers : List (BusHandler dat st err)) (data : dat)
    (s0 : st) : st × List ℕ :=
  handlers.foldl
    (fun acc h =>
      match h.run data acc.1 with
      | Except.ok s2 => (s2, acc.2 ++ [h.hid])
      | Except.error _ => (acc.1, acc.2 ++ [h.hid]))
    (s0, [])

/-- `AsyncEventBus._inmemory_consumer` (lines 127-143) over a finite stream of
dequeued messages: each message is dispatched in turn; a dispatch-level
exception never stops the loop. Returns the final state and the concatenated
invocation log. -/
def consumer_loop {dat st err : Type} (handlers : List (BusHandler dat st err))
    (msgs : List dat) (s0 : st) : st × List ℕ :=
  msgs.foldl
    (fun acc m =>
      let d := dispatch handlers m acc.1
      (d.1, acc.2 ++ d.2))
    (s0, [])

/-! ## Anomaly agent: analyzer and template fallback (`anomaly_agent.py`
lines 49-249) and the acted-on action list (`action_agent.py` lines 68-72) -/

/-- One candidate of `recommended_actions`. -/
structure ActionCandidate where
  action : String
  reason : String
  priority : String
deriving DecidableEq, Repr

/-- The analysis structure consumed downstream of the analyzer. -/
structure AnomalyAnalysis where
  cause : String
  impact_summary : String
  recommended_actions : List ActionCandidate
  severity_assessment : String
  confidence : ℚ
  affected_order_count : ℕ
  affected_warehouses : List String
deriving DecidableEq, Repr

/-- The `summary` block of `_collect_context`. -/
structure ContextSummary where
  pending_orders : ℕ
  orders_last_hour : ℕ
  low_stock_count : ℕ
  available_vehicles : ℕ
  total_vehicles : ℕ
  breakdown_vehicles : ℕ
  warehouse_codes : List String
deriving DecidableEq, Repr

/-- The context bundle of `_collect_context`: the summary plus the affected
(top-priority pending) order codes. -/
structure AnalysisContext where
  summary : ContextSummary
  affected_orders : List String
deriving DecidableEq, Repr

/-- `AnomalyAgent._template_fallback` (lines 144-249): the deterministic
template keyed by anomaly type, with the affected-order count and warehouse
list filled in from the context afterwards. -/
def template_fallback (event_type : String) (ctx : AnalysisContext) : AnomalyAnalysis :=
  let summary := ctx.summary
  let pending := summary.pending_orders
  let affected := ctx.affected_orders
  let result : AnomalyAnalysis :=
    if event_type = "ORDER_SURGE" then
      { cause := "주문 유입률이 급증했습니다. 프로모션, 계절적 수요 증가, 또는 대형 거래처의 일괄 발주가 원인으로 추정됩니다. 현재 미처리 주문 " ++ toString pending ++ "건이 적체되어 있습니다.",
        impact_summary := "창고 처리 용량 대비 주문량이 초과하여 출하 지연이 발생할 수 있습니다. VIP 고객 주문의 SLA 위반 위험이 높아지고, 피킹/패킹 인력 부족이 예상됩니다.",
        recommended_actions :=
          [ { action := "피킹 순서 재조정", reason := "VIP 주문 우선 처리", priority := "HIGH" },
            { action := "ECONOMY 주문 익일 전환", reason := "처리 용량 확보", priority := "MEDIUM" },
            { action := "추가 차량 배차", reason := "출하량 증가 대응", priority := "MEDIUM" } ],
        severity_assessment := "CRITICAL",
        confidence := 75/100,
        affected_order_count := 0,
        affected_warehouses := [] }
    else if event_type = "VEHICLE_BREAKDOWN" then
      { cause := "차량 고장이 발생했습니다. 현재 가용 차량 " ++ toString summary.available_vehicles ++ "대로 배송 수행 중이며, 고장 차량의 배송 건을 재배정해야 합니다.",
        impact_summary := "해당 차량에 배정된 주문의 배송이 지연될 수 있습니다. 특히 VIP 고객 주문이 포함된 경우 SLA 위반 위험이 있습니다.",
        recommended_actions :=
          [ { action := "배차 재배정", reason := "고장 차량 대체", priority := "HIGH" },
            { action := "고객 알림 발송", reason := "배송 지연 사전 안내", priority := "HIGH" },
            { action := "경로 재최적화", reason := "대체 차량 경로 설정", priority := "MEDIUM" } ],
        severity_assessment := "CRITICAL",
        confidence := 80/100,
        affected_order_count := 0,
        affected_warehouses := [] }
    else if event_type = "STOCK_SHORTAGE" then
      { cause := "안전재고 이하인 SKU가 " ++ toString summary.low_stock_count ++ "개 발생했습니다. 수요 급증 또는 공급 지연이 원인으로 추정됩니다.",
        impact_summary := "해당 SKU가 포함된 주문의 출하가 지연될 수 있습니다. 대체 창고에서의 재고 이동 또는 긴급 생산 요청이 필요할 수 있습니다.",
        recommended_actions :=
          [ { action := "긴급 생산 요청", reason := "재고 소진 품목 보충", priority := "HIGH" },
            { action := "대체 창고 재고 이동", reason := "다른 창고의 여유 재고 활용", priority := "MEDIUM" },
            { action := "주문 부분 출하", reason := "가용 품목 먼저 배송", priority := "LOW" } ],
        severity_assessment := "WARNING",
        confidence := 70/100,
        affected_order_count := 0,
        affected_warehouses := [] }
    else if event_type = "SLA_RISK" then
      { cause := "VIP 고객 주문의 납기 위반 위험이 감지되었습니다. 주문 적체, 재고 부족, 또는 차량 부족으로 인해 처리가 지연되고 있습니다.",
        impact_summary := "SLA 위반 시 고객사와의 계약 위반에 해당하며, 거래 관계 악화 및 패널티 발생 가능성이 있습니다.",
        recommended_actions :=
          [ { action := "피킹 순서 변경", reason := "위험 주문 최우선 처리", priority := "HIGH" },
            { action := "고객 알림 발송", reason := "지연 가능성 사전 안내", priority := "HIGH" },
            { action := "경로 재최적화", reason := "배송 시간 단축", priority := "MEDIUM" } ],
        severity_assessment := "CRITICAL",
        confidence := 80/100,
        affected_order_count := 0,
        affected_warehouses := [] }
    else if event_type = "DOCK_CONGESTION" then
      { cause := "도크 점유율이 높아 출하 대기 시간이 증가하고 있습니다. 동시 출하 건수 증가 또는 적재 시간 초과가 원인으로 추정됩니다.",
        impact_summary := "도크 혼잡으로 인해 전체 출하 처리 시간이 증가합니다. 연쇄적으로 배송 지연이 발생할 수 있습니다.",
        recommended_actions :=
          [ { action := "피킹 순서 변경", reason := "도크 사용 효율화", priority := "HIGH" },
            { action := "ECONOMY 주문 익일 전환", reason := "도크 부하 분산", priority := "MEDIUM" } ],
        severity_assessment := "WARNING",
        confidence := 70/100,
        affected_order_count := 0,
        affected_warehouses := [] }
    else
      { cause := event_type ++ " 이상 상황이 감지되었습니다.",
        impact_summary := "미처리 주문 " ++ toString pending ++ "건에 영향이 예상됩니다.",
        recommended_actions :=
          [ { action := "상황 모니터링", reason := "추가 데이터 수집", priority := "MEDIUM" } ],
        severity_assessment := "WARNING",
        confidence := 50/100,
        affected_order_count := 0,
        affected_warehouses := [] }
  { result with
    affected_order_count := affected.length,
    affected_warehouses := summary.warehouse_codes }

/-- The three failure modes of `_llm_analyze` — provider unavailable
(`is_available()` false), empty response (`call_llm` returned nothing) and
unparseable response (JSON decode failure) — or a parsed analysis. -/
inductive LLMOutcome
  | unavailable
  | no_text
  | unparseable
  | parsed (a : AnomalyAnalysis)
deriving DecidableEq, Repr

/-- `AnomalyAgent._llm_analyze` (lines 105-142): each failure mode returns
nothing; only a parsed response produces an analysis. -/
def llm_analyze : LLMOutcome → Option AnomalyAnalysis
  | LLMOutcome.unavailable => none
  | LLMOutcome.no_text => none
  | LLMOutcome.unparseable => none
  | LLMOutcome.parsed a => some a

/-- `AnomalyAgent.analyze` steps 2-3 (lines 63-69): use the provider analysis
when there is one, otherwise the deterministic template. -/
def analyze (outcome : LLMOutcome) (event_type : String) (ctx : AnalysisContext) :
    AnomalyAnalysis :=
  match llm_analyze outcome with
  | some a => a
  | none => template_fallback event_type ctx

/-- `ActionAgent.execute` lines 68-72: the action-candidate list acted on —
when the analysis carries none, a default continue-monitoring candidate is
substituted. -/
def action_agent_recommended (analysis : AnomalyAnalysis) : List ActionCandidate :=
  if analysis.recommended_actions.isEmpty then
    [{ action := "상황 모니터링", reason := "추가 데이터 수집 필요", priority := "LOW" }]
  else analysis.recommended_actions

/-- A concrete context bundle for witnesses. -/
def sample_context : AnalysisContext :=
  { summary :=
      { pending_orders := 5,
        orders_last_hour := 3,
        low_stock_count := 0,
        available_vehicles := 4,
        total_vehicles := 5,
        breakdown_vehicles := 1,
        warehouse_codes := ["WH-001"] },
    affected_orders := ["ORD-1"] }

/-! ## State snapshot and incremental handlers (`state_snapshot.py`,
`monitor_agent.py` lines 79-129) -/

/-- A vehicle entry of `state.vehicle_statuses`. -/
structure VehicleInfo where
  code : String
  status : String
  lat : Option ℚ
  lng : Option ℚ
  speed_kmh : ℚ
  fuel_pct : ℚ
deriving DecidableEq, Repr

/-- `StateSnapshot` of `state_snapshot.py` (the SLA-risk map, rewritten only
by the periodic resync, is not needed by the handler claims and is left
out). -/
structure Snapshot where
  order_rate_timestamps : List ℚ
  low_stock_items : List ((ℕ × ℕ) × ℕ)
  vehicle_statuses : List (ℕ × VehicleInfo)
  dock_occupancy : List (ℕ × ℚ)
  pending_orders : ℤ
  last_detected : List (String × ℚ)
deriving DecidableEq, Repr

/-- `OrderRateWindow.record` with `deque(maxlen=1000)`: append, evicting the
oldest timestamp when full. -/
def record_arrival (timestamps : List ℚ) (ts : ℚ) : List ℚ :=
  if timestamps.length < 1000 then timestamps ++ [ts]
  else timestamps.drop 1 ++ [ts]

/-- `MonitorAgent._on_order_created` (lines 79-86): record an arrival and
increment the pending count. -/
def on_order_created (s : Snapshot) (ts : ℚ) : Snapshot :=
  { s with
    order_rate_timestamps := record_arrival s.order_rate_timestamps ts,
    pending_orders := s.pending_orders + 1 }

/-- `MonitorAgent._on_order_status_changed` (lines 88-95): decrement the
pending count, saturating at 0, when the new status is late-pipeline. -/
def on_order_status_changed (s : Snapshot) (new_status : String) : Snapshot :=
  if new_status = "PACKED" ∨ new_status = "LOADING" ∨ new_status = "SHIPPED" ∨
      new_status = "DELIVERED" then
    { s with pending_orders := max 0 (s.pending_orders - 1) }
  else s

/-- Dict assignment on the (warehouse, product)-keyed low-stock map. -/
def stock_set : List ((ℕ × ℕ) × ℕ) → ℕ × ℕ → ℕ → List ((ℕ × ℕ) × ℕ)
  | [], k, v => [(k, v)]
  | kv :: rest, k, v =>
    if kv.1 = k then (k, v) :: stock_set rest k v
    else kv :: stock_set rest k v

/-- `del low_stock_items[key]` (a no-op when the key is absent, matching the
`elif key in ...` guard). -/
def stock_del (l : List ((ℕ × ℕ) × ℕ)) (k : ℕ × ℕ) : List ((ℕ × ℕ) × ℕ) :=
  l.filter (fun kv => kv.1 ≠ k)

/-- `MonitorAgent._on_inventory_updated` (lines 97-111): requires truthy ids
and present quantities, then adds or removes the low-stock entry depending on
the safety-stock comparison. -/
def on_inventory_updated (s : Snapshot)
    (warehouse_id product_id available_qty safety_stock : Option ℕ) : Snapshot :=
  match warehouse_id, product_id, available_qty, safety_stock with
  | some wh, some pid, some qty, some safety =>
    if wh ≠ 0 ∧ pid ≠ 0 then
      if qty ≤ safety then
        { s with low_stock_items := stock_set s.low_stock_items (wh, pid) qty }
      else
        { s with low_stock_items := stock_del s.low_stock_items (wh, pid) }
    else s
  | _, _, _, _ => s

/-- The loop of `_on_vehicle_updated` (lines 120-127): patch the first
vehicle whose code matches, leave the rest untouched. -/
def patch_vehicle (vehicle_code status : String) (lat lng : Option ℚ)
    (speed_kmh fuel_pct : ℚ) : List (ℕ × VehicleInfo) → List (ℕ × VehicleInfo)
  | [] => []
  | (vid, vi) :: rest =>
    if vi.code = vehicle_code then
      (vid, { vi with
              status := status,
              lat := lat,
              lng := lng,
              speed_kmh := speed_kmh,
              fuel_pct := fuel_pct }) :: rest
    else (vid, vi) :: patch_vehicle vehicle_code status lat lng speed_kmh fuel_pct rest

/-- `MonitorAgent._on_vehicle_updated` (lines 113-129). -/
def on_vehicle_updated (s : Snapshot) (vehicle_code status : String)
    (lat lng : Option ℚ) (speed_kmh fuel_pct : ℚ) : Snapshot :=
  { s with vehicle_statuses :=
      patch_vehicle vehicle_code status lat lng speed_kmh fuel_pct s.vehicle_statuses }

/-- One inbound domain event of the four incremental-handler topics. -/
inductive MonitorEvent
  | order_created (ts : ℚ)
  | order_status_changed (new_status : String)
  | inventory_updated (warehouse_id product_id available_qty safety_stock : Option ℕ)
  | vehicle_updated (vehicle_code status : String) (lat lng : Option ℚ)
      (speed_kmh fuel_pct : ℚ)
deriving DecidableEq, Repr

/-- Dispatch of one inbound event to its incremental handler. -/
def apply_event (s : Snapshot) : MonitorEvent → Snapshot
  | MonitorEvent.order_created ts => on_order_created s ts
  | MonitorEvent.order_status_changed st => on_order_status_changed s st
  | MonitorEvent.inventory_updated wh pid qty safety =>
      on_inventory_updated s wh pid qty safety
  | MonitorEvent.vehicle_updated code st lat lng sp fu =>
      on_vehicle_updated s code st lat lng sp fu

/-- The freshly constructed `StateSnapshot()`: empty maps, zero pending. -/
def initial_snapshot : Snapshot :=
  { order_rate_timestamps := [],
    low_stock_items := [],
    vehicle_statuses := [],
    dock_occupancy := [],
    pending_orders := 0,
    last_detected := [] }

end Hankook

namespace Hankook

/-! ## Claim theorems (first group) -/

/-- C1: the decided execution mode is a deterministic function of the action
type and the confidence: with `(auto_th, approval_th) := thresholds_for a`
(defaulting to (0.85, 0.60) for an unknown action type), the mode is AUTO
exactly when `auto_th ≤ c`, PENDING_APPROVAL exactly when
`approval_th ≤ c < auto_th`, and ESCALATED exactly when `c` is below both
thresholds; consequently an action type whose auto threshold exceeds 1 is
never AUTO for any confidence in [0,1], and one with both thresholds above 1
is always ESCALATED there. -/
theorem execution_mode_decision (a : String) (c : ℚ) :
    (determine_execution_mode a c = ExecutionMode.AUTO ↔ (thresholds_for a).1 ≤ c) ∧
    (determine_execution_mode a c = ExecutionMode.PENDING_APPROVAL ↔
      (thresholds_for a).2 ≤ c ∧ c < (thresholds_for a).1) ∧
    (determine_execution_mode a c = ExecutionMode.ESCALATED ↔
      c < (thresholds_for a).2 ∧ c < (thresholds_for a).1) ∧
    (1 < (thresholds_for a).1 → 0 ≤ c → c ≤ 1 →
      determine_execution_mode a c ≠ ExecutionMode.AUTO) ∧
    (1 < (thresholds_for a).1 → 1 < (thresholds_for a).2 → 0 ≤ c → c ≤ 1 →
      determine_execution_mode a c = ExecutionMode.ESCALATED) := by
  unfold determine_execution_mode
  rcases le_or_lt (thresholds_for a).1 c with hauto | hauto
  · rw [if_pos hauto]
    refine ⟨iff_of_true rfl hauto,
      iff_of_false (by simp) (fun h => absurd h.2 (not_lt.mpr hauto)),
      iff_of_false (by simp) (fun h => absurd h.2 (not_lt.mpr hauto)), ?_, ?_⟩
    · exact fun h1 _ hc1 => absurd (hauto.trans hc1) (not_le.mpr h1)
    · exact fun h1 _ _ hc1 => absurd (hauto.trans hc1) (not_le.mpr h1)
  · rw [if_neg (not_le.mpr hauto)]
    rcases le_or_lt (thresholds_for a).2 c with happr | happr
    · rw [if_pos happr]
      refine ⟨iff_of_false (by simp) (not_le.mpr hauto),
        iff_of_true rfl ⟨happr, hauto⟩,
        iff_of_false (by simp) (fun h => absurd happr (not_le.mpr h.1)),
        fun _ _ _ => by simp, ?_⟩
      intro _ h2 _ hc1
      exact absurd (lt_of_lt_of_le h2 (happr.trans hc1)) (lt_irrefl 1)
    · rw [if_neg (not_le.mpr happr)]
      exact ⟨iff_of_false (by simp) (not_le.mpr hauto),
        iff_of_false (by simp) (fun h => absurd h.1 (not_le.mpr happr)),
        iff_of_true rfl ⟨happr, hauto⟩,
        fun _ _ _ => by simp, fun _ _ _ _ => rfl⟩

/-- C3: the order-surge rule fires exactly when the 60-minute average is at
least 1, the 10-minute rate at least 4 and the surge factor
`rate10 / avg10` at least 2, with severity CRITICAL when the factor is at
least 3 and WARNING otherwise; in particular `avg10 = 1, rate10 = 4` fires
CRITICAL, `avg10 = 2, rate10 = 5` fires WARNING and `avg10 = 0.5, rate10 = 4`
does not fire. -/
theorem order_surge_rule_spec :
    (∀ (r : ℕ) (a : ℚ),
      order_surge_check r a =
        if 1 ≤ a ∧ 4 ≤ r ∧ 2 ≤ (r : ℚ) / a then
          some ⟨"ORDER_SURGE",
            if 3 ≤ (r : ℚ) / a then EventSeverity.CRITICAL else EventSeverity.WARNING⟩
        else none) ∧
    order_surge_check 4 1 = some ⟨"ORDER_SURGE", EventSeverity.CRITICAL⟩ ∧
    order_surge_check 5 2 = some ⟨"ORDER_SURGE", EventSeverity.WARNING⟩ ∧
    order_surge_check 4 (1/2) = none := by
  refine ⟨fun r a => ?_, by norm_num [order_surge_check], by norm_num [order_surge_check],
    by norm_num [order_surge_check]⟩
  unfold order_surge_check
  rcases lt_or_le a 1 with ha | ha
  · rw [if_pos (Or.inl ha), if_neg (by rintro ⟨h, -, -⟩; exact absurd h (not_le.mpr ha))]
  · rcases lt_or_le r 4 with hr | hr
    · rw [if_pos (Or.inr hr), if_neg (by rintro ⟨-, h, -⟩; exact absurd h (not_le.mpr hr))]
    · rw [if_neg (by push_neg; exact ⟨ha, hr⟩)]
      rcases lt_or_le ((r : ℚ) / a) 2 with hq | hq
      · rw [if_pos hq, if_neg (by rintro ⟨-, -, h⟩; exact absurd h (not_le.mpr hq))]
      · rw [if_neg (not_lt.mpr hq),
          if_pos (show 1 ≤ a ∧ 4 ≤ r ∧ 2 ≤ (r : ℚ) / a from ⟨ha, hr, hq⟩)]

/-- A record found by `find_event` carries the key it was found by. -/
theorem find_event_key {db : EventDB} {event_id : String} {ev : AgentEvent}
    (h : find_event db event_id = some ev) : ev.event_id = event_id := by
  have hb := List.find?_some h
  exact eq_of_beq hb

/-- Rewriting a record by key: if a row with the key existed, the rewritten
table returns the new record at that key. -/
theorem find_event_set_event {db : EventDB} {event_id : String} {ev : AgentEvent}
    {ev2 : AgentEvent} (h : find_event db event_id = some ev)
    (hid : ev2.event_id = event_id) :
    find_event (set_event db ev2) event_id = some ev2 := by
  induction db with
  | nil => simp [find_event] at h
  | cons e rest ih =>
    rcases hbe : (e.event_id == event_id) with _ | _
    · have hh : find_event rest event_id = some ev := by
        unfold find_event at h ⊢
        rwa [List.find?_cons_of_neg _ (by simp [hbe])] at h
      have hmap : (e.event_id == ev2.event_id) = false := by rw [hid]; exact hbe
      have hres := ih hh
      unfold set_event find_event at hres ⊢
      rw [List.map_cons, if_neg (by simp [hmap]), List.find?_cons_of_neg _ (by simp [hbe])]
      exact hres
    · have hmap : (e.event_id == ev2.event_id) = true := by rw [hid]; exact hbe
      unfold set_event find_event
      rw [List.map_cons, if_pos hmap, List.find?_cons_of_pos _ (by simp [hid])]

/-- `List.lookup` after the dict-assignment `assoc_set` at the assigned key. -/
theorem lookup_assoc_set {β : Type} (l : List (String × β)) (k : String) (v : β) :
    (assoc_set l k v).lookup k = some v := by
  induction l with
  | nil => simp [assoc_set, List.lookup]
  | cons kv rest ih =>
    rcases hk : (kv.1 == k) with _ | _
    · have h2 : (k == kv.1) = false := by
        rcases hkk : (k == kv.1) with _ | _
        · rfl
        · rw [eq_of_beq hkk] at hk; simp at hk
      simp only [assoc_set, hk, Bool.false_eq_true, if_false, List.lookup, h2]
      exact ih
    · simp [assoc_set, hk, List.lookup]

/-- `List.lookup` after `assoc_set` at a different key is unchanged. -/
theorem lookup_assoc_set_ne {β : Type} (l : List (String × β)) {k k2 : String} (v : β)
    (hne : k2 ≠ k) : (assoc_set l k v).lookup k2 = l.lookup k2 := by
  have h3 : (k2 == k) = false := by
    rcases hkk : (k2 == k) with _ | _
    · rfl
    · exact absurd (eq_of_beq hkk) hne
  induction l with
  | nil => simp [assoc_set, List.lookup, h3]
  | cons kv rest ih =>
    rcases hk : (kv.1 == k) with _ | _
    · simp only [assoc_set, hk, Bool.false_eq_true, if_false, List.lookup]
      rcases hk2 : (k2 == kv.1) with _ | _
      · exact ih
      · rfl
    · have h2 : (k2 == kv.1) = false := by
        rcases hkk : (k2 == kv.1) with _ | _
        · rfl
        · exact absurd (by rw [eq_of_beq hkk, eq_of_beq hk]) hne
      simp only [assoc_set, hk, if_true, List.lookup, h2, h3]
      exact ih

/-- C2: `approve` succeeds exactly on an existing PENDING_APPROVAL record,
transitioning it to HUMAN_APPROVED; `reject` likewise succeeds exactly once,
transitioning to ESCALATED with the reason recorded in the action summary and
(for a non-empty payload) in the payload; a second approve/reject on the now
non-pending record, or either operation on a missing or non-pending record,
returns a structured error and leaves the table unchanged. -/
theorem approval_state_machine (db : EventDB) (event_id reason : String) :
    (find_event db event_id = none →
      do_approve db event_id = (db, ApprovalOutcome.err ("이벤트를 찾을 수 없습니다")) ∧
      do_reject db event_id reason = (db, ApprovalOutcome.err ("이벤트를 찾을 수 없습니다"))) ∧
    (∀ ev, find_event db event_id = some ev →
      ev.execution_mode ≠ ExecutionMode.PENDING_APPROVAL →
      (∃ m, do_approve db event_id = (db, ApprovalOutcome.err m)) ∧
      (∃ m, do_reject db event_id reason = (db, ApprovalOutcome.err m))) ∧
    (∀ ev, find_event db event_id = some ev →
      ev.execution_mode = ExecutionMode.PENDING_APPROVAL →
      (do_approve db event_id).2 =
        ApprovalOutcome.ok event_id ("approved") (payload_get_str ev.payload ("action_type")) ∧
      (∃ ev2, find_event (do_approve db event_id).1 event_id = some ev2 ∧
        ev2.execution_mode = ExecutionMode.HUMAN_APPROVED ∧
        ev2.action_taken = ev.action_taken ++ " → 관리자 승인 완료") ∧
      (∃ m, do_approve (do_approve db event_id).1 event_id =
        ((do_approve db event_id).1, ApprovalOutcome.err m))) ∧
    (∀ ev, find_event db event_id = some ev →
      ev.execution_mode = ExecutionMode.PENDING_APPROVAL →
      (do_reject db event_id reason).2 = ApprovalOutcome.ok event_id ("rejected") reason ∧
      (∃ ev2, find_event (do_reject db event_id reason).1 event_id = some ev2 ∧
        ev2.execution_mode = ExecutionMode.ESCALATED ∧
        ev2.action_taken = ev.action_taken ++ " → 관리자 거절: " ++ reason ∧
        (ev.payload ≠ [] →
          ev2.payload.lookup "reject_reason" = some (PayloadValue.str reason) ∧
          ev2.payload.lookup "rejected" = some (PayloadValue.bool true))) ∧
      (∃ m, do_reject (do_reject db event_id reason).1 event_id reason =
        ((do_reject db event_id reason).1, ApprovalOutcome.err m))) := by
  refine ⟨?_, ?_, ?_, ?_⟩
  · intro h
    exact ⟨by simp [do_approve, h], by simp [do_reject, h]⟩
  · intro ev h hmode
    constructor
    · exact ⟨"승인 대기 상태가 아닙니다 (현재: " ++ execution_mode_str ev.execution_mode ++ ")",
        by simp [do_approve, h, hmode]⟩
    · exact ⟨"승인 대기 상태가 아닙니다 (현재: " ++ execution_mode_str ev.execution_mode ++ ")",
        by simp [do_reject, h, hmode]⟩
  · intro ev h hmode
    have hid : ev.event_id = event_id := find_event_key h
    have happ : do_approve db event_id =
        (set_event db { ev with execution_mode := ExecutionMode.HUMAN_APPROVED,
                                action_taken := ev.action_taken ++ " → 관리자 승인 완료" },
         ApprovalOutcome.ok event_id ("approved") (payload_get_str ev.payload ("action_type"))) := by
      simp [do_approve, h, hmode]
    have hfind2 : find_event (do_approve db event_id).1 event_id =
        some { ev with execution_mode := ExecutionMode.HUMAN_APPROVED,
                       action_taken := ev.action_taken ++ " → 관리자 승인 완료" } := by
      rw [happ]
      exact find_event_set_event h hid
    refine ⟨by rw [happ], ⟨_, hfind2, rfl, rfl⟩,
      ⟨"승인 대기 상태가 아닙니다 (현재: " ++
        execution_mode_str ExecutionMode.HUMAN_APPROVED ++ ")", ?_⟩⟩
    generalize hg : (do_approve db event_id).1 = db1 at hfind2 ⊢
    simp [do_approve, hfind2]
  · intro ev h hmode
    have hid : ev.event_id = event_id := find_event_key h
    have hrej : do_reject db event_id reason =
        (set_event db
          { ev with
            execution_mode := ExecutionMode.ESCALATED,
            action_taken := ev.action_taken ++ " → 관리자 거절: " ++ reason,
            payload :=
              if ev.payload.isEmpty then ev.payload
              else assoc_set (assoc_set ev.payload ("rejected") (PayloadValue.bool true))
                ("reject_reason") (PayloadValue.str reason) },
         ApprovalOutcome.ok event_id ("rejected") reason) := by
      simp [do_reject, h, hmode]
    have hfind2 : find_event (do_reject db event_id reason).1 event_id =
        some
          { ev with
            execution_mode := ExecutionMode.ESCALATED,
            action_taken := ev.action_taken ++ " → 관리자 거절: " ++ reason,
            payload :=
              if ev.payload.isEmpty then ev.payload
              else assoc_set (assoc_set ev.payload ("rejected") (PayloadValue.bool true))
                ("reject_reason") (PayloadValue.str reason) } := by
      rw [hrej]
      exact find_event_set_event h hid
    refine ⟨by rw [hrej], ⟨_, hfind2, rfl, rfl, ?_⟩,
      ⟨"승인 대기 상태가 아닙니다 (현재: " ++
        execution_mode_str ExecutionMode.ESCALATED ++ ")", ?_⟩⟩
    · intro hpl
      have hne : ev.payload.isEmpty = false := by
        simpa [List.isEmpty_iff] using hpl
      simp only [hne, Bool.false_eq_true, if_false]
      constructor
      · exact lookup_assoc_set _ _ _
      · rw [lookup_assoc_set_ne _ _ (by decide)]
        exact lookup_assoc_set _ _ _
    · generalize hg : (do_reject db event_id reason).1 = db1 at hfind2 ⊢
      simp [do_reject, hfind2]

/-- Witness for C2 at a concrete one-row table: approving the pending sample
record yields the structured "approved" outcome. -/
theorem approval_state_machine_witness :
    (do_approve sample_db ("EV-1")).2 =
      ApprovalOutcome.ok ("EV-1") ("approved") ("배차 재배정") :=
  ((approval_state_machine sample_db ("EV-1") ("사유")).2.2.1 sample_event rfl rfl).1

/-- C4: once a rule fired at time `t` (its id is stamped `t` in the ledger),
a detection attempt at any `now` with `now - t < 300` is suppressed — ledger,
audit log and published messages all unchanged — even when the rule condition
holds; an attempt at `now` with `now - t ≥ 300` whose condition holds fires
again: it restamps the ledger with `now`, writes an audit record and publishes
an anomaly message. -/
theorem cooldown_window (st : MonitorState) (rule_id : String) (t now : ℚ)
    (h : st.last_detected.lookup rule_id = some t) :
    (∀ fires, now - t < 300 → run_rule_step st rule_id fires now = st) ∧
    (300 ≤ now - t →
      run_rule_step st rule_id true now =
        { last_detected := assoc_set st.last_detected rule_id now,
          audit_log := st.audit_log ++ [rule_id],
          published := st.published ++ [rule_id] } ∧
      (run_rule_step st rule_id true now).last_detected.lookup rule_id = some now) := by
  constructor
  · intro fires hlt
    cases fires
    · simp [run_rule_step]
    · simp [run_rule_step, h, COOLDOWN_SECONDS, hlt]
  · intro hge
    have heq : run_rule_step st rule_id true now =
        { last_detected := assoc_set st.last_detected rule_id now,
          audit_log := st.audit_log ++ [rule_id],
          published := st.published ++ [rule_id] } := by
      simp [run_rule_step, h, COOLDOWN_SECONDS, not_lt.mpr hge]
    refine ⟨heq, ?_⟩
    rw [heq]
    exact lookup_assoc_set _ _ _

/-- Witness for C4: with the order-surge rule stamped at time 0, a firing
condition at time 100 is suppressed. -/
theorem cooldown_window_witness :
    run_rule_step sample_monitor_state ("order_surge") true 100 = sample_monitor_state :=
  (cooldown_window sample_monitor_state ("order_surge") 0 100 rfl).1 true (by norm_num)

/-- Folding `enqueue_inmemory` from a queue within capacity keeps exactly the
newest `INMEMORY_MAXSIZE` entries of queue-then-stream. -/
theorem foldl_enqueue_inmemory {α : Type} (l : List α) :
    ∀ q : List α, q.length ≤ INMEMORY_MAXSIZE →
      List.foldl enqueue_inmemory q l =
        (q ++ l).drop (q.length + l.length - INMEMORY_MAXSIZE) := by
  induction l with
  | nil =>
    intro q h
    simp [Nat.sub_eq_zero_of_le h]
  | cons e rest ih =>
    intro q h
    rw [List.foldl_cons]
    by_cases hq : q.length < INMEMORY_MAXSIZE
    · have he : enqueue_inmemory q e = q ++ [e] := by
        simp [enqueue_inmemory, hq]
      rw [he, ih (q ++ [e]) (by simpa using Nat.succ_le_of_lt hq)]
      rw [show (q ++ [e]) ++ rest = q ++ (e :: rest) by simp]
      rw [show (q ++ [e]).length + rest.length - INMEMORY_MAXSIZE
          = q.length + (e :: rest).length - INMEMORY_MAXSIZE from by
        simp only [List.length_append, List.length_cons, List.length_nil, INMEMORY_MAXSIZE]
        omega]
    · have hqe : q.length = 10000 := by
        have h2 := le_antisymm h (not_lt.mp hq)
        simpa [INMEMORY_MAXSIZE] using h2
      have he : enqueue_inmemory q e = q.drop 1 ++ [e] := by
        simp [enqueue_inmemory, hq]
      have hb : (q.drop 1 ++ [e]).length ≤ INMEMORY_MAXSIZE := by
        simp only [List.length_append, List.length_drop, List.length_cons, List.length_nil,
          INMEMORY_MAXSIZE]
        omega
      rw [he, ih (q.drop 1 ++ [e]) hb]
      obtain ⟨a, q2, rfl⟩ : ∃ a q2, q = a :: q2 := by
        cases q with
        | nil => simp at hqe
        | cons a q2 => exact ⟨a, q2, rfl⟩
      have hql : q2.length + 1 = 10000 := by simpa using hqe
      simp only [List.drop_succ_cons, List.drop_zero]
      rw [show (q2 ++ [e]) ++ rest = q2 ++ (e :: rest) by simp]
      rw [show (a :: q2) ++ (e :: rest) = a :: (q2 ++ (e :: rest)) by simp]
      rw [show (q2 ++ [e]).length + rest.length - INMEMORY_MAXSIZE = rest.length from by
        simp only [List.length_append, List.length_cons, List.length_nil, INMEMORY_MAXSIZE]
        omega]
      rw [show (a :: q2).length + (e :: rest).length - INMEMORY_MAXSIZE = rest.length + 1 from by
        simp only [List.length_cons, INMEMORY_MAXSIZE]
        omega]
      rw [List.drop_succ_cons]

/-- C5: a publish into the in-memory queue appends when there is room, and on
a full queue (capacity 10000) drops exactly the single oldest entry before
enqueuing the new one; hence publishing any 10001-message stream into an empty
topic with no consumer leaves exactly the newest 10000 messages, in publish
order. -/
theorem event_bus_drop_oldest (α : Type) :
    (∀ (q : List α) (e : α), q.length < INMEMORY_MAXSIZE →
      enqueue_inmemory q e = q ++ [e]) ∧
    (∀ (q : List α) (e : α), q.length = INMEMORY_MAXSIZE →
      enqueue_inmemory q e = q.drop 1 ++ [e]) ∧
    (∀ msgs : List α, msgs.length = 10001 →
      List.foldl enqueue_inmemory ([] : List α) msgs = msgs.drop 1) := by
  refine ⟨fun q e h => by simp [enqueue_inmemory, h],
    fun q e h => by simp [enqueue_inmemory, h],
    fun msgs h => ?_⟩
  rw [foldl_enqueue_inmemory msgs [] (by simp)]
  simp [h, INMEMORY_MAXSIZE]

/-- Witness for C5: 10001 consecutive naturals published into an empty topic
leave the newest 10000. -/
theorem event_bus_drop_oldest_witness :
    List.foldl enqueue_inmemory ([] : List ℕ) (List.range 10001) =
      (List.range 10001).drop 1 :=
  (event_bus_drop_oldest ℕ).2.2 (List.range 10001) (by simp)

/-- The two clamp spellings agree. -/
theorem clamp_comm (x : ℚ) : max 0 (min 100 x) = min 100 (max 0 x) := by
  rcases le_total x 0 with h | h
  · rw [max_eq_left h, min_eq_right (h.trans (by norm_num)), max_eq_left h,
      min_eq_right (by norm_num : (0:ℚ) ≤ 100)]
  · rw [max_eq_right h]
    rcases le_total x 100 with h2 | h2
    · rw [min_eq_right h2, max_eq_right h]
    · rw [min_eq_left h2]
      norm_num

/-- The fold of the item loop, from an arbitrary flag pair: the first flag
survives exactly when no item is zero-short, the second is raised exactly
when some item is partially short. -/
theorem inventory_flags_fold (items : List OrderItemCtx) :
    ∀ init : Bool × Bool,
      items.foldl
        (fun fl it =>
          match it.inventory_qty with
          | some qty =>
            if qty < it.quantity then
              if qty = 0 then (false, fl.2) else (fl.1, true)
            else fl
          | none => fl)
        init =
      (init.1 && !(items.any (fun it => it.inventory_qty.any
          (fun qty => decide (qty < it.quantity) && decide (qty = 0)))),
        init.2 || items.any (fun it => it.inventory_qty.any
          (fun qty => decide (qty < it.quantity) && decide (qty ≠ 0)))) := by
  induction items with
  | nil => intro init; simp
  | cons it rest ih =>
    intro init
    rw [List.foldl_cons, ih]
    cases hinv : it.inventory_qty with
    | none => simp [hinv]
    | some qty =>
      by_cases hlt : qty < it.quantity
      · by_cases hz : qty = 0
        · subst hz
          simp [hinv, hlt]
        · simp [hinv, hlt, hz, Bool.or_assoc]
      · simp [hinv, hlt]

/-- The flag-based inventory score of the code equals the spec-side one. -/
theorem inventory_score_eq (items : List OrderItemCtx) :
    (if (inventory_flags items).1 && !(inventory_flags items).2 then (100:ℚ)
      else if (inventory_flags items).2 then 50 else 0) =
    spec_inventory_score items := by
  unfold inventory_flags spec_inventory_score
  rw [inventory_flags_fold items (true, false)]
  have hall : items.all (fun it => it.inventory_qty.all (fun qty => decide (it.quantity ≤ qty)))
      = (!(items.any (fun it => it.inventory_qty.any
          (fun qty => decide (qty < it.quantity) && decide (qty = 0)))) &&
         !(items.any (fun it => it.inventory_qty.any
          (fun qty => decide (qty < it.quantity) && decide (qty ≠ 0))))) := by
    induction items with
    | nil => simp
    | cons it rest ih =>
      rw [List.all_cons, List.any_cons, List.any_cons, ih]
      cases hinv : it.inventory_qty with
      | none => simp [hinv]
      | some qty =>
        by_cases hlt : qty < it.quantity
        · by_cases hz : qty = 0
          · subst hz
            simp [hinv, hlt, not_le.mpr hlt]
          · simp [hinv, hlt, hz, not_le.mpr hlt]
        · simp [hinv, hlt, not_lt.mp hlt]
  rw [hall]
  rcases items.any (fun it => it.inventory_qty.any
      (fun qty => decide (qty < it.quantity) && decide (qty = 0))) with _ | _ <;>
    rcases items.any (fun it => it.inventory_qty.any
      (fun qty => decide (qty < it.quantity) && decide (qty ≠ 0))) with _ | _ <;>
    simp

/-- The fold-min best grade scores as the membership chain of the spec. -/
theorem product_score_best (rest : List PriorityGrade) :
    ∀ g, PRODUCT_SCORES (best_grade g rest) = spec_product_score (g :: rest) := by
  induction rest with
  | nil =>
    intro g
    cases g <;> simp [best_grade, spec_product_score, PRODUCT_SCORES]
  | cons h t ih =>
    intro g
    rw [show best_grade g (h :: t)
        = best_grade (if grade_index h < grade_index g then h else g) t from rfl]
    rw [ih]
    cases g <;> cases h <;>
      simp [spec_product_score, grade_index, List.mem_cons]

/-- The product sub-score of the code equals the spec-side one on any grade list. -/
theorem product_score_of_eq (grades : List PriorityGrade) :
    product_score_of grades = spec_product_score grades := by
  cases grades with
  | nil => simp [product_score_of, spec_product_score]
  | cons g rest => exact product_score_best rest g

/-- C6: the new priority score is the clamp to [0, 100] of the two-decimal
rounding of the weighted sum 0.25·customer + 0.30·urgency + 0.15·product +
0.15·inventory + 0.15·anomaly, where the customer sub-score is 100/60/30 by
tier, urgency is clamp(0, 100, (1 − remaining/SLA)·100) (0 when the SLA time
is not positive), the product sub-score maps the best line-item grade to
100/60/30 with default 30, the inventory sub-score is 100/50/0 for
fully/partially/not coverable line items, and the anomaly sub-score is 30
exactly for orders in the affected set. -/
theorem priority_score_formula (affected : List String) (o : OrderCtx) (c : CustomerData) :
    compute_new_score affected o c =
      spec_clamp 0 100 (round2 (
        25/100 * CUSTOMER_SCORES c.grade +
        30/100 * (if 0 < c.sla_hours then
            spec_clamp 0 100 ((1 - o.remaining_hours / c.sla_hours) * 100) else 0) +
        15/100 * spec_product_score (o.items.filterMap (fun it => it.product_grade)) +
        15/100 * spec_inventory_score o.items +
        15/100 * (if o.order_code ∈ affected then 30 else 0))) := by
  have hsum :
      CUSTOMER_SCORES c.grade * W_CUSTOMER +
      (if 0 < c.sla_hours then
        max 0 (min 100 ((1 - o.remaining_hours / c.sla_hours) * 100)) else 0) * W_URGENCY +
      product_score_of (o.items.filterMap (fun it => it.product_grade)) * W_PRODUCT +
      (if (inventory_flags o.items).1 && !(inventory_flags o.items).2 then (100:ℚ)
        else if (inventory_flags o.items).2 then 50 else 0) * W_INVENTORY +
      (if o.order_code ∈ affected then (30:ℚ) else 0) * W_ANOMALY =
      25/100 * CUSTOMER_SCORES c.grade +
      30/100 * (if 0 < c.sla_hours then
          spec_clamp 0 100 ((1 - o.remaining_hours / c.sla_hours) * 100) else 0) +
      15/100 * spec_product_score (o.items.filterMap (fun it => it.product_grade)) +
      15/100 * spec_inventory_score o.items +
      15/100 * (if o.order_code ∈ affected then 30 else 0) := by
    rw [product_score_of_eq, inventory_score_eq]
    unfold spec_clamp
    rw [clamp_comm]
    unfold W_CUSTOMER W_URGENCY W_PRODUCT W_INVENTORY W_ANOMALY
    ring
  show min 100 (max 0 (round2 _)) = min 100 (max 0 (round2 _))
  rw [hsum]

/-- `compute_new_score` never reads the live priority score. -/
theorem compute_new_score_ignores_live (affected : List String) (o : OrderCtx)
    (c : CustomerData) (x : ℚ) :
    compute_new_score affected { o with priority_score := x } c =
      compute_new_score affected o c := rfl

/-- `score_order` on an order whose customer row resolves, spelt out. -/
theorem score_order_eq (affected : List String) (o : OrderCtx) (c : CustomerData)
    (hc : o.customer = some c) :
    score_order affected o =
      if 1/2 ≤ |compute_new_score affected o c - o.priority_score| then
        ({ o with priority_score := compute_new_score affected o c },
          some { order_code := o.order_code, old_score := o.priority_score,
                 new_score := compute_new_score affected o c,
                 direction := if o.priority_score < compute_new_score affected o c
                   then "상향" else "하향" })
      else (o, none) := by
  unfold score_order
  rw [hc]

/-- Rescoring an already-rescored order records nothing. -/
theorem score_order_idem (affected : List String) (o : OrderCtx) :
    score_order affected ((score_order affected o).1) =
      ((score_order affected o).1, none) := by
  cases hc : o.customer with
  | none => simp [score_order, hc]
  | some c =>
    rw [score_order_eq affected o c hc]
    by_cases hd : (1:ℚ)/2 ≤ |compute_new_score affected o c - o.priority_score|
    · rw [if_pos hd]
      dsimp only
      rw [score_order_eq affected
        { o with priority_score := compute_new_score affected o c } c hc]
      rw [show compute_new_score affected
          { o with priority_score := compute_new_score affected o c } c
          = compute_new_score affected o c from rfl]
      rw [show ({ o with priority_score := compute_new_score affected o c } :
          OrderCtx).priority_score = compute_new_score affected o c from rfl]
      rw [sub_self, abs_zero, if_neg (by norm_num : ¬ ((1:ℚ)/2 ≤ 0))]
    · rw [if_neg hd]
      dsimp only
      rw [score_order_eq affected o c hc, if_neg hd]

/-- C7: a priority change is recorded, and the live score overwritten, exactly
when the newly computed score differs from the current one by at least 0.5;
consequently a second scoring pass over the output of a first pass on the same
inputs records zero changes. -/
theorem priority_change_threshold_idempotent :
    (∀ (affected : List String) (o : OrderCtx) (c : CustomerData), o.customer = some c →
      ((((score_order affected o).2).isSome ↔
        1/2 ≤ |compute_new_score affected o c - o.priority_score|) ∧
       ((score_order affected o).1).priority_score =
        (if 1/2 ≤ |compute_new_score affected o c - o.priority_score|
          then compute_new_score affected o c else o.priority_score))) ∧
    (∀ (affected : List String) (orders : List OrderCtx),
      (do_recalculate affected (do_recalculate affected orders).1).2 = []) := by
  constructor
  · intro affected o c hc
    rw [score_order_eq affected o c hc]
    by_cases hd : (1:ℚ)/2 ≤ |compute_new_score affected o c - o.priority_score|
    · rw [if_pos hd]
      exact ⟨iff_of_true (by simp) hd, by rw [if_pos hd]⟩
    · rw [if_neg hd]
      exact ⟨iff_of_false (by simp) hd, by rw [if_neg hd]⟩
  · intro affected orders
    unfold do_recalculate
    rw [List.filterMap_map]
    refine List.filterMap_eq_nil_iff.mpr ?_
    intro o ho
    have h := congrArg Prod.snd (score_order_idem affected o)
    simpa [Function.comp] using h

/-- The dispatch fold invokes every handler in list order, whatever each
handler returns, extending any starting log. -/
theorem dispatch_fold_log {dat st err : Type} (data : dat) :
    ∀ (handlers : List (BusHandler dat st err)) (s0 : st) (log0 : List ℕ),
      (handlers.foldl
        (fun acc h =>
          match h.run data acc.1 with
          | Except.ok s2 => (s2, acc.2 ++ [h.hid])
          | Except.error _ => (acc.1, acc.2 ++ [h.hid]))
        (s0, log0)).2 = log0 ++ handlers.map (fun h => h.hid) := by
  intro handlers
  induction handlers with
  | nil => intro s0 log0; simp
  | cons h rest ih =>
    intro s0 log0
    rw [List.foldl_cons]
    cases hr : h.run data s0 with
    | ok s2 =>
      simp only [hr]
      rw [ih s2 (log0 ++ [h.hid])]
      simp
    | error e =>
      simp only [hr]
      rw [ih s0 (log0 ++ [h.hid])]
      simp

/-- C8: for every message dispatched on a topic, every registered handler is
invoked, in registration order, regardless of which handlers raise; and over
a whole message stream the consumer loop keeps running, invoking the full
handler list for every message in turn. -/
theorem dispatch_isolates_handler_errors (dat st err : Type) :
    (∀ (handlers : List (BusHandler dat st err)) (data : dat) (s0 : st),
      (dispatch handlers data s0).2 = handlers.map (fun h => h.hid)) ∧
    (∀ (handlers : List (BusHandler dat st err)) (msgs : List dat) (s0 : st),
      (consumer_loop handlers msgs s0).2 =
        (msgs.map (fun _ => handlers.map (fun h => h.hid))).flatten) := by
  have hdisp : ∀ (handlers : List (BusHandler dat st err)) (data : dat) (s0 : st),
      (dispatch handlers data s0).2 = handlers.map (fun h => h.hid) := by
    intro handlers data s0
    unfold dispatch
    rw [dispatch_fold_log data handlers s0 []]
    simp
  refine ⟨hdisp, ?_⟩
  have haux : ∀ (handlers : List (BusHandler dat st err)) (msgs : List dat)
      (s0 : st) (log0 : List ℕ),
      (msgs.foldl
        (fun acc m =>
          let d := dispatch handlers m acc.1
          (d.1, acc.2 ++ d.2))
        (s0, log0)).2 =
      log0 ++ (msgs.map (fun _ => handlers.map (fun h => h.hid))).flatten := by
    intro handlers msgs
    induction msgs with
    | nil => intro s0 log0; simp
    | cons m rest ih =>
      intro s0 log0
      rw [List.foldl_cons]
      dsimp only
      rw [ih, hdisp handlers m s0]
      simp
  intro handlers msgs s0
  unfold consumer_loop
  rw [haux handlers msgs s0 []]
  simp

/-- C9: whenever the reasoning provider is unavailable, returns no text or
returns an unparseable response, the analysis is exactly the deterministic
template for the anomaly type; every template confidence lies in
[0.50, 0.80], an unknown type gets 0.50; and the action list acted on is
never empty — an analysis without candidates gets the default
continue-monitoring candidate substituted. -/
theorem analyzer_template_fallback (outcome : LLMOutcome) (event_type : String)
    (ctx : AnalysisContext) (h : llm_analyze outcome = none) :
    analyze outcome event_type ctx = template_fallback event_type ctx ∧
    1/2 ≤ (template_fallback event_type ctx).confidence ∧
    (template_fallback event_type ctx).confidence ≤ 4/5 ∧
    (event_type ≠ "ORDER_SURGE" → event_type ≠ "VEHICLE_BREAKDOWN" →
      event_type ≠ "STOCK_SHORTAGE" → event_type ≠ "SLA_RISK" →
      event_type ≠ "DOCK_CONGESTION" →
      (template_fallback event_type ctx).confidence = 1/2) ∧
    action_agent_recommended (analyze outcome event_type ctx) ≠ [] ∧
    (∀ a : AnomalyAnalysis, a.recommended_actions = [] →
      action_agent_recommended a =
        [{ action := "상황 모니터링", reason := "추가 데이터 수집 필요", priority := "LOW" }]) := by
  have ha : analyze outcome event_type ctx = template_fallback event_type ctx := by
    unfold analyze
    rw [h]
  refine ⟨ha, ?_, ?_, ?_, ?_, ?_⟩
  · unfold template_fallback
    dsimp only
    split_ifs <;> norm_num
  · unfold template_fallback
    dsimp only
    split_ifs <;> norm_num
  · intro h1 h2 h3 h4 h5
    unfold template_fallback
    dsimp only
    rw [if_neg h1, if_neg h2, if_neg h3, if_neg h4, if_neg h5]
    norm_num
  · rw [ha]
    unfold template_fallback action_agent_recommended
    dsimp only
    split_ifs <;> simp_all
  · intro a hrec
    unfold action_agent_recommended
    rw [hrec]
    simp

/-- Witness for C9: an unavailable provider on an unknown anomaly type yields
the default template with confidence 0.50 and a non-empty action list. -/
theorem analyzer_template_fallback_witness :
    analyze LLMOutcome.unavailable ("SOMETHING_ELSE") sample_context =
      template_fallback ("SOMETHING_ELSE") sample_context ∧
    (template_fallback ("SOMETHING_ELSE") sample_context).confidence = 1/2 := by
  have h := analyzer_template_fallback LLMOutcome.unavailable ("SOMETHING_ELSE")
    sample_context rfl
  exact ⟨h.1, h.2.2.2.1 (by decide) (by decide) (by decide) (by decide) (by decide)⟩

/-- Folding the incremental handlers preserves non-negativity of the pending
count. -/
theorem pending_nonneg_fold (evs : List MonitorEvent) :
    ∀ s : Snapshot, 0 ≤ s.pending_orders →
      0 ≤ (evs.foldl apply_event s).pending_orders := by
  induction evs with
  | nil => intro s h; simpa using h
  | cons e rest ih =>
    intro s h
    rw [List.foldl_cons]
    apply ih
    cases e with
    | order_created ts =>
      simp only [apply_event, on_order_created]
      omega
    | order_status_changed st =>
      simp only [apply_event, on_order_status_changed]
      split_ifs
      · exact le_max_left 0 _
      · exact h
    | inventory_updated wh pid qty safety =>
      cases wh <;> cases pid <;> cases qty <;> cases safety <;>
        simp only [apply_event, on_inventory_updated] <;>
        try exact h
      split_ifs <;> exact h
    | vehicle_updated code st lat lng sp fu =>
      simpa [apply_event, on_vehicle_updated] using h

/-- C10: the pending-orders count stays non-negative under the incremental
handlers — order-created increments it by one, an order-status change into
PACKED/LOADING/SHIPPED/DELIVERED decrements it saturating at zero, and from
the fresh snapshot every event sequence keeps it at 0 or above. -/
theorem pending_orders_nonneg :
    (∀ (s : Snapshot) (ts : ℚ),
      (on_order_created s ts).pending_orders = s.pending_orders + 1) ∧
    (∀ (s : Snapshot) (st : String),
      st ∈ (["PACKED", "LOADING", "SHIPPED", "DELIVERED"] : List String) →
      (on_order_status_changed s st).pending_orders = max 0 (s.pending_orders - 1)) ∧
    (∀ evs : List MonitorEvent,
      0 ≤ ((evs.foldl apply_event initial_snapshot).pending_orders)) := by
  refine ⟨fun s ts => rfl, ?_, ?_⟩
  · intro s st hmem
    unfold on_order_status_changed
    rw [if_pos (by simpa using hmem)]
  · intro evs
    exact pending_nonneg_fold evs initial_snapshot (by norm_num [initial_snapshot])

end Hankook
